import Mathlib

/-!
# Verification of `sentry/monitors/system_incidents.py`

Shallow embedding of the system-incident detection core: the per-minute
check-in volume counter store, the clock-tick anomaly scorer, and the tick
metric reader.

Modelling conventions:
* A Python `datetime` instant is modelled as an integer count of epoch
  seconds (`Int`).  `timedelta(minutes=1)` is `60`, `timedelta(days=1)` is
  `86400`, `timedelta(days=30)` is `2592000` seconds.
* The Redis store is modelled as a structure of total maps from the integer
  reference timestamp embedded in the key to an optional stored value,
  one map per key family (`sentry.monitors.volume_history:{ts}` and
  `sentry.monitors.volume_metric:{ts}`), plus a map for each family's TTL.
  A key that is absent (never set, or expired) maps to `none`.
* Stored counter strings parse to integers (`_int_or_none` / `int(v)`), so
  volume values are modelled as `Int`; the metric value is a Python float,
  modelled as an exact rational (`Rat`).
* `statistics.mean`, the percent deviation and the division-by-zero
  behaviour of Python numeric division are modelled over `Rat`;
  `statistics.stdev` is a real square root and is modelled over `ℝ`.
* Side effects of `record_clock_tick_volume_metric` are captured in a
  `TickOutcome`: the store after the call, the list of keys read via
  `mget`, the number of `metrics.gauge` and `logger.info` emissions, and
  the Python exception raised, if any.
-/

namespace SystemIncidents

/-- `MONITOR_VOLUME_DECISION_STEP = timedelta(days=1)`, in seconds. -/
def MONITOR_VOLUME_DECISION_STEP : Int := 86400

/-- `MONITOR_VOLUME_RETENTION = timedelta(days=30)`, in seconds. -/
def MONITOR_VOLUME_RETENTION : Int := 2592000

/-- `_make_reference_ts(ts)`: zero the seconds (and sub-second) component of
the instant and return the resulting epoch-second count, i.e. truncate the
instant down to its minute boundary. -/
def makeReferenceTs (ts : Int) : Int :=
  ts - ts % 60

/-- The Redis store visible to this module: the two key families used by
the code (`volume_history` counters and `volume_metric` floats) together
with the TTL state of each key.  `none` models an absent key. -/
@[ext]
structure Store where
  volumes : Int → Option Int
  volumeTTL : Int → Option Int
  metrics : Int → Option Rat
  metricTTL : Int → Option Int

/-- Observable non-store effects of one `record_clock_tick_volume_metric`
call: reference timestamps read by the bulk `mget`, number of
`metrics.gauge` calls, number of `logger.info` calls. -/
structure Effects where
  reads : List Int
  gauges : Nat
  logs : Nat
deriving DecidableEq

/-- Python exceptions this module can raise on the modelled paths. -/
inductive PyError where
  | zeroDivisionError
deriving DecidableEq

/-- Result of one `record_clock_tick_volume_metric` call: the store after
the call, the emitted effects, and the raised exception if any. -/
structure TickOutcome where
  store : Store
  eff : Effects
  error : Option PyError

/-- The backward walk of `record_clock_tick_volume_metric` (lines 91-93):
`while historic_ts > start_ts: historic_ts -= MONITOR_VOLUME_DECISION_STEP;
historic_timestamps.append(historic_ts)`. -/
def walkBack (start_ts : Int) (historic_ts : Int) (acc : List Int) : List Int :=
  if _h : historic_ts > start_ts then
    walkBack start_ts (historic_ts - MONITOR_VOLUME_DECISION_STEP)
      (acc ++ [historic_ts - MONITOR_VOLUME_DECISION_STEP])
  else
    acc
termination_by (historic_ts - start_ts).toNat
decreasing_by
  simp only [MONITOR_VOLUME_DECISION_STEP]
  omega

/-- The full `historic_timestamps` list built for a tick whose previous
minute is `past_ts` (lines 84-93): starts as `[past_ts]`, then walks
backward from `past_ts` until reaching `start_ts = past_ts - RETENTION`. -/
def historicTimestamps (past_ts : Int) : List Int :=
  walkBack (past_ts - MONITOR_VOLUME_RETENTION) past_ts [past_ts]

/-- The reference timestamps whose volume keys the tick handler bulk-reads
via `mget` (lines 96-98). -/
def readKeys (tick : Int) : List Int :=
  (historicTimestamps (tick - 60)).map makeReferenceTs

/-- `statistics.mean` over a list of integer volumes, modelled exactly over
`Rat` (the Python float result is exact for every value this code stores
or that the claims mention).  Total function; the code only calls it with
at least two samples. -/
def statistics_mean (l : List Int) : Rat :=
  (l.map fun (x : Int) => (x : Rat)).sum / (l.length : Rat)

/-- The sample variance underlying `statistics.stdev` (denominator
`n - 1`), over `Rat`.  Total function; the code only calls it with at
least two samples. -/
def sampleVariance (l : List Int) : Rat :=
  (l.map fun (x : Int) => ((x : Rat) - statistics_mean l) ^ 2).sum / ((l.length : Rat) - 1)

/-- `statistics.stdev`: the square root of the sample variance. -/
noncomputable def statistics_stdev (l : List Int) : ℝ :=
  Real.sqrt ((sampleVariance l : Rat) : ℝ)

open Classical in
/-- Lines 122-125: `z_score = (past_minute_volume - mean) / stdev` when
`historic_stdev != 0.0`, else `0.0`. -/
noncomputable def zScore (past_minute_volume : Int) (historic_volume : List Int) : ℝ :=
  if statistics_stdev historic_volume ≠ 0 then
    ((past_minute_volume : ℝ) - ((statistics_mean historic_volume : Rat) : ℝ)) /
      statistics_stdev historic_volume
  else
    0

/-- Line 128: `pct_deviation = (past_minute_volume - historic_mean) /
historic_mean * 100`. -/
def pctDeviation (past_minute_volume : Int) (historic_volume : List Int) : Rat :=
  ((past_minute_volume : Rat) - statistics_mean historic_volume) /
    statistics_mean historic_volume * 100

/-- Line 100: `past_minute_volume = _int_or_none(volumes.pop(0))` — the
first `mget` result, which is the volume at the bucket of `past_ts`. -/
def pastVolume (s : Store) (tick : Int) : Option Int :=
  ((readKeys tick).map s.volumes).headD none

/-- Line 101: `historic_volume = [int(v) for v in volumes if v is not
None]` — the remaining `mget` results with absent keys filtered out. -/
def historicVolumes (s : Store) (tick : Int) : List Int :=
  (((readKeys tick).map s.volumes).drop 1).filterMap id

/-- Lines 152-154: `set` then `expire` of the tick-metric key. -/
def writeMetric (s : Store) (key : Int) (v : Rat) : Store :=
  { s with
      metrics := fun k => if k = key then some v else s.metrics k,
      metricTTL := fun k => if k = key then some MONITOR_VOLUME_RETENTION else s.metricTTL k }

/-- `record_clock_tick_volume_metric(tick)` (lines 63-154), as a function
of the feature flag `crons.tick_volume_anomaly_detection`, the tick
instant, and the store.  Branch structure follows the source: feature-flag
gate; bulk read; abort when the past minute volume is absent or fewer than
two historic samples exist; `ZeroDivisionError` from
`historic_stdev_pct = (historic_stdev / historic_mean) * 100` (line 117)
when the historic mean is zero (raised before any gauge, log or write);
otherwise four gauges, one log record, and `set` + `expire` of
`pct_deviation` under the tick-metric key of `past_ts`. -/
def recordClockTickVolumeMetric (flag : Bool) (tick : Int) (s : Store) : TickOutcome :=
  if !flag then
    ⟨s, ⟨[], 0, 0⟩, none⟩
  else
    match pastVolume s tick with
    | none => ⟨s, ⟨readKeys tick, 0, 0⟩, none⟩
    | some past_minute_volume =>
      let historic_volume := historicVolumes s tick
      if historic_volume.length < 2 then
        ⟨s, ⟨readKeys tick, 0, 0⟩, none⟩
      else if statistics_mean historic_volume = 0 then
        ⟨s, ⟨readKeys tick, 0, 0⟩, some .zeroDivisionError⟩
      else
        let pct_deviation := pctDeviation past_minute_volume historic_volume
        let key := makeReferenceTs (tick - 60)
        ⟨writeMetric s key pct_deviation, ⟨readKeys tick, 4, 1⟩, none⟩

/-- `get_clock_tick_volume_metric(tick)` (lines 157-166): read the
tick-metric key at the bucket of `tick`. -/
def get_clock_tick_volume_metric (tick : Int) (s : Store) : Option Rat :=
  s.metrics (makeReferenceTs tick)

/-- The items of `Counter(_make_reference_ts(ts) for ts in ts_list)`
(line 54): the distinct reference timestamps, in first-occurrence order,
each paired (implicitly, via `List.count`) with its multiplicity. -/
def counterKeys (ts_list : List Int) : List Int :=
  (ts_list.map makeReferenceTs).dedup

/-- One loop body of `update_check_in_volume` (lines 55-60): pipeline of
`incr(key, amount=count)` and `expire(key, MONITOR_VOLUME_RETENTION)`.
Redis `INCRBY` treats an absent key as 0. -/
def incrExpire (s : Store) (k : Int) (count : Nat) : Store :=
  { s with
      volumes := fun x => if x = k then some ((s.volumes k).getD 0 + count) else s.volumes x,
      volumeTTL := fun x => if x = k then some MONITOR_VOLUME_RETENTION else s.volumeTTL x }

/-- `update_check_in_volume(ts_list)` (lines 46-60): group the timestamps
by minute bucket and issue one `incr` + `expire` per distinct bucket with
that bucket's multiplicity. -/
def update_check_in_volume (ts_list : List Int) (s : Store) : Store :=
  (counterKeys ts_list).foldl
    (fun st k => incrExpire st k ((ts_list.map makeReferenceTs).count k)) s

/-! ## Basic lemmas about the backward walk -/

/-- Unrolling of `walkBack` when the walk has exactly `n` whole decision
steps to go: it appends the `n` stepped-back timestamps to the
accumulator. -/
theorem walkBack_spec (n : Nat) :
    ∀ (ts : Int) (acc : List Int),
      walkBack (ts - MONITOR_VOLUME_DECISION_STEP * n) ts acc =
        acc ++ (List.range n).map
          fun (k : Nat) => ts - MONITOR_VOLUME_DECISION_STEP * ((k : Int) + 1) := by
  induction n with
  | zero =>
    intro ts acc
    unfold walkBack
    simp
  | succ m ih =>
    intro ts acc
    unfold walkBack
    rw [dif_pos (by simp only [MONITOR_VOLUME_DECISION_STEP]; push_cast; omega)]
    have hcast : ts - MONITOR_VOLUME_DECISION_STEP * ((m + 1 : Nat) : Int) =
        (ts - MONITOR_VOLUME_DECISION_STEP) - MONITOR_VOLUME_DECISION_STEP * (m : Int) := by
      push_cast
      ring
    rw [hcast, ih (ts - MONITOR_VOLUME_DECISION_STEP) (acc ++ [ts - MONITOR_VOLUME_DECISION_STEP])]
    have hfun : (fun (k : Nat) =>
          ts - MONITOR_VOLUME_DECISION_STEP - MONITOR_VOLUME_DECISION_STEP * ((k : Int) + 1)) =
        ((fun (k : Nat) => ts - MONITOR_VOLUME_DECISION_STEP * ((k : Int) + 1)) ∘ Nat.succ) := by
      funext k
      simp only [Function.comp_apply]
      push_cast
      ring
    rw [List.range_succ_eq_map, List.map_cons, List.map_map, List.append_assoc,
      List.singleton_append, hfun]
    norm_num

/-- Closed form of the historical timestamp list: the previous minute plus
thirty points stepping back one day each, thirty-one in total. -/
theorem historicTimestamps_eq (past_ts : Int) :
    historicTimestamps past_ts =
      (List.range 31).map
        fun (k : Nat) => past_ts - MONITOR_VOLUME_DECISION_STEP * (k : Int) := by
  have h30 : past_ts - MONITOR_VOLUME_RETENTION =
      past_ts - MONITOR_VOLUME_DECISION_STEP * ((30 : Nat) : Int) := by
    norm_num [MONITOR_VOLUME_RETENTION, MONITOR_VOLUME_DECISION_STEP]
  rw [historicTimestamps, h30, walkBack_spec 30 past_ts [past_ts]]
  have hfun : (fun (k : Nat) =>
        past_ts - MONITOR_VOLUME_DECISION_STEP * ((k : Int) + 1)) =
      ((fun (k : Nat) => past_ts - MONITOR_VOLUME_DECISION_STEP * (k : Int)) ∘ Nat.succ) := by
    funext k
    simp only [Function.comp_apply]
    push_cast
    ring
  conv_rhs => rw [show (31 : Nat) = 30 + 1 from rfl, List.range_succ_eq_map, List.map_cons,
    List.map_map]
  rw [List.singleton_append, hfun]
  norm_num

/-! ## Branch characterisations of the tick handler -/

/-- With the feature flag enabled but no past-minute volume, the handler
aborts after the bulk read. -/
theorem record_of_pastVolume_none {tick : Int} {s : Store}
    (hp : pastVolume s tick = none) :
    recordClockTickVolumeMetric true tick s = ⟨s, ⟨readKeys tick, 0, 0⟩, none⟩ := by
  simp [recordClockTickVolumeMetric, hp]

/-- With fewer than two historic samples, the handler aborts after the
bulk read. -/
theorem record_of_short_history {tick : Int} {s : Store} {p : Int}
    (hp : pastVolume s tick = some p)
    (h2 : (historicVolumes s tick).length < 2) :
    recordClockTickVolumeMetric true tick s = ⟨s, ⟨readKeys tick, 0, 0⟩, none⟩ := by
  simp [recordClockTickVolumeMetric, hp, h2]

/-- With a zero historic mean, line 117 divides by zero and the handler
raises before emitting or writing anything. -/
theorem record_of_zero_mean {tick : Int} {s : Store} {p : Int}
    (hp : pastVolume s tick = some p)
    (h2 : ¬(historicVolumes s tick).length < 2)
    (hm : statistics_mean (historicVolumes s tick) = 0) :
    recordClockTickVolumeMetric true tick s =
      ⟨s, ⟨readKeys tick, 0, 0⟩, some PyError.zeroDivisionError⟩ := by
  simp [recordClockTickVolumeMetric, hp, h2, hm]

/-- On the happy path the handler emits four gauges plus one log record
and writes the percent deviation under the tick-metric key of the
previous minute. -/
theorem record_of_write {tick : Int} {s : Store} {p : Int}
    (hp : pastVolume s tick = some p)
    (h2 : ¬(historicVolumes s tick).length < 2)
    (hm : statistics_mean (historicVolumes s tick) ≠ 0) :
    recordClockTickVolumeMetric true tick s =
      ⟨writeMetric s (makeReferenceTs (tick - 60)) (pctDeviation p (historicVolumes s tick)),
        ⟨readKeys tick, 4, 1⟩, none⟩ := by
  simp [recordClockTickVolumeMetric, hp, h2, hm]

/-- `writeMetric` leaves the volume-history key family untouched. -/
theorem writeMetric_volumes (s : Store) (key : Int) (v : Rat) :
    (writeMetric s key v).volumes = s.volumes := rfl

/-- The extracted past-minute volume depends only on the volume map. -/
theorem pastVolume_writeMetric (s : Store) (key : Int) (v : Rat) (tick : Int) :
    pastVolume (writeMetric s key v) tick = pastVolume s tick := rfl

/-- The extracted historic sample depends only on the volume map. -/
theorem historicVolumes_writeMetric (s : Store) (key : Int) (v : Rat) (tick : Int) :
    historicVolumes (writeMetric s key v) tick = historicVolumes s tick := rfl

/-- Overwriting the tick-metric key with the value it already holds is a
no-op on the store. -/
theorem writeMetric_idem (s : Store) (key : Int) (v : Rat) :
    writeMetric (writeMetric s key v) key v = writeMetric s key v := by
  unfold writeMetric
  ext k
  · rfl
  · rfl
  · by_cases h : k = key <;> simp [h]
  · by_cases h : k = key <;> simp [h]

/-! ## Concrete stores used by the witnesses -/

/-- The empty store: no key of any family is present. -/
def emptyStore : Store :=
  ⟨fun _ => none, fun _ => none, fun _ => none, fun _ => none⟩

/-- Store realising the anomaly scenario for the tick at epoch second 60:
the past minute (bucket 0) has volume 40 and the five most recent daily
history points have volumes 100, 102, 98, 101, 99. -/
def anomalyStore : Store :=
  { emptyStore with
      volumes := fun k =>
        if k = 0 then some 40
        else if k = -86400 then some 100
        else if k = -172800 then some 102
        else if k = -259200 then some 98
        else if k = -345600 then some 101
        else if k = -432000 then some 99
        else none }

/-! ## Claim theorems -/

/-- C9: `_make_reference_ts` is a pure deterministic function truncating
an instant to minute granularity (an integer epoch-seconds key equal to
sixty times the floored minute index); it is monotone non-decreasing, and
two instants in the same minute map to the same key. -/
theorem C9_bucketing_truncates_and_is_monotone (a b : Int) :
    makeReferenceTs a = 60 * (a / 60) ∧
    (a ≤ b → makeReferenceTs a ≤ makeReferenceTs b) ∧
    (a / 60 = b / 60 → makeReferenceTs a = makeReferenceTs b) := by
  refine ⟨?_, fun hab => ?_, fun h => ?_⟩ <;> simp only [makeReferenceTs] <;> omega

/-- Witness for C9 at concrete instants: monotonicity at 61 ≤ 125 and
same-minute collapse of 61 and 119. -/
theorem C9_witness :
    makeReferenceTs 61 ≤ makeReferenceTs 125 ∧ makeReferenceTs 61 = makeReferenceTs 119 :=
  ⟨(C9_bucketing_truncates_and_is_monotone 61 125).2.1 (by decide),
   (C9_bucketing_truncates_and_is_monotone 61 119).2.2 (by decide)⟩

/-- C2: for every tick, the historical timestamp list built for the bulk
fetch is exactly `[past - k · 1 day | k = 0 .. 30]` where
`past = tick - 1 minute` — thirty-one keys, the last of which sits exactly
on the retention boundary `past - 30 days` and is included. -/
theorem C2_historic_walk_fetches_31_boundary_inclusive (tick : Int) :
    historicTimestamps (tick - 60) =
      (List.range 31).map
        (fun (k : Nat) => (tick - 60) - MONITOR_VOLUME_DECISION_STEP * (k : Int)) ∧
    (historicTimestamps (tick - 60)).length = 31 ∧
    ((tick - 60) - MONITOR_VOLUME_RETENTION) ∈ historicTimestamps (tick - 60) := by
  refine ⟨historicTimestamps_eq (tick - 60), ?_, ?_⟩
  · rw [historicTimestamps_eq]
    simp
  · rw [historicTimestamps_eq]
    refine List.mem_map.mpr ⟨30, ?_, ?_⟩
    · simp
    · norm_num [MONITOR_VOLUME_DECISION_STEP, MONITOR_VOLUME_RETENTION]

/-- C7: with the anomaly-detection option disabled, the tick handler
returns immediately: the store is untouched, nothing is read, and no
gauge or log record is emitted. -/
theorem C7_flag_disabled_is_noop (tick : Int) (s : Store) :
    recordClockTickVolumeMetric false tick s = ⟨s, ⟨[], 0, 0⟩, none⟩ := rfl

/-- C5: with the flag enabled, when the past-minute volume is absent or
fewer than two historic samples are present, the tick handler performs the
bulk read but writes nothing and emits no gauges or logs; in particular
the tick-metric key of the previous minute stays exactly as it was. -/
theorem C5_missing_data_skips_write (tick : Int) (s : Store)
    (h : pastVolume s tick = none ∨ (historicVolumes s tick).length < 2) :
    recordClockTickVolumeMetric true tick s = ⟨s, ⟨readKeys tick, 0, 0⟩, none⟩ ∧
    get_clock_tick_volume_metric (tick - 60)
        (recordClockTickVolumeMetric true tick s).store =
      get_clock_tick_volume_metric (tick - 60) s := by
  have hmain : recordClockTickVolumeMetric true tick s =
      ⟨s, ⟨readKeys tick, 0, 0⟩, none⟩ := by
    rcases h with hp | h2
    · exact record_of_pastVolume_none hp
    · cases hp : pastVolume s tick with
      | none => exact record_of_pastVolume_none hp
      | some p => exact record_of_short_history hp h2
  rw [hmain]
  exact ⟨rfl, rfl⟩

/-- Witness for C5: on the empty store nothing is present, the handler
writes nothing, and the tick metric for the previous minute stays
absent. -/
theorem C5_witness :
    recordClockTickVolumeMetric true 60 emptyStore =
      ⟨emptyStore, ⟨readKeys 60, 0, 0⟩, none⟩ ∧
    get_clock_tick_volume_metric (60 - 60)
        (recordClockTickVolumeMetric true 60 emptyStore).store =
      get_clock_tick_volume_metric (60 - 60) emptyStore :=
  C5_missing_data_skips_write 60 emptyStore
    (Or.inl (by simp only [pastVolume, readKeys, historicTimestamps_eq]; decide))

/-- Store with past-minute volume 5 (bucket 0 for the tick at epoch
second 60) but a historic sample of two zero-volume points, so the
historic mean is exactly zero. -/
def zeroMeanStore : Store :=
  { emptyStore with
      volumes := fun k =>
        if k = 0 then some 5
        else if k = -86400 then some 0
        else if k = -172800 then some 0
        else none }

/-- Store with uniform volume 10 on the past minute and on the three most
recent daily history points (tick at epoch second 60). -/
def uniformStore : Store :=
  { emptyStore with
      volumes := fun k =>
        if k = 0 then some 10
        else if k = -86400 then some 10
        else if k = -172800 then some 10
        else if k = -259200 then some 10
        else none }

/-- C1: whenever the past-minute volume `p` is present, at least two
historic samples are present, and the historic mean is non-zero (so the
claimed value exists), the tick handler completes without error and stores
`(p - mean) / mean * 100` under the tick-metric key of
`past = tick - 1 minute`. -/
theorem C1_stores_pct_deviation (tick : Int) (s : Store) (p : Int)
    (hp : pastVolume s tick = some p)
    (h2 : 2 ≤ (historicVolumes s tick).length)
    (hm : statistics_mean (historicVolumes s tick) ≠ 0) :
    (recordClockTickVolumeMetric true tick s).error = none ∧
    (recordClockTickVolumeMetric true tick s).store.metrics (makeReferenceTs (tick - 60)) =
      some (((p : Rat) - statistics_mean (historicVolumes s tick)) /
        statistics_mean (historicVolumes s tick) * 100) := by
  rw [record_of_write hp (Nat.not_lt.mpr h2) hm]
  exact ⟨rfl, by simp [writeMetric, pctDeviation]⟩

/-- Witness for C1, the anomaly scenario: historic volumes
`[100, 102, 98, 101, 99]` (mean 100) and past-minute volume 40 store
exactly `-60` for the previous minute. -/
theorem C1_witness :
    pastVolume anomalyStore 60 = some 40 ∧
    2 ≤ (historicVolumes anomalyStore 60).length ∧
    (recordClockTickVolumeMetric true 60 anomalyStore).error = none ∧
    (recordClockTickVolumeMetric true 60 anomalyStore).store.metrics
        (makeReferenceTs (60 - 60)) = some (-60) := by
  have hv : historicVolumes anomalyStore 60 = [100, 102, 98, 101, 99] := by
    simp only [historicVolumes, readKeys, historicTimestamps_eq]
    decide
  have hp : pastVolume anomalyStore 60 = some 40 := by
    simp only [pastVolume, readKeys, historicTimestamps_eq]
    decide
  have h2 : 2 ≤ (historicVolumes anomalyStore 60).length := by
    rw [hv]
    decide
  have hm : statistics_mean (historicVolumes anomalyStore 60) ≠ 0 := by
    rw [hv]
    norm_num [statistics_mean]
  have main := C1_stores_pct_deviation 60 anomalyStore 40 hp h2 hm
  refine ⟨hp, h2, main.1, ?_⟩
  rw [main.2, hv]
  norm_num [statistics_mean]

/-- C3 counterexample: a store state where the past-minute volume is
present and two historic samples are present but both are zero.  The
claim says the handler skips the metric rather than dividing by zero;
in fact line 117 (`historic_stdev_pct = (historic_stdev / historic_mean)
* 100`) has no zero-mean guard and raises `ZeroDivisionError`. -/
theorem C3_counterexample :
    pastVolume zeroMeanStore 60 = some 5 ∧
    (historicVolumes zeroMeanStore 60).length = 2 ∧
    statistics_mean (historicVolumes zeroMeanStore 60) = 0 ∧
    (recordClockTickVolumeMetric true 60 zeroMeanStore).error =
      some PyError.zeroDivisionError := by
  have hv : historicVolumes zeroMeanStore 60 = [0, 0] := by
    simp only [historicVolumes, readKeys, historicTimestamps_eq]
    decide
  have hp : pastVolume zeroMeanStore 60 = some 5 := by
    simp only [pastVolume, readKeys, historicTimestamps_eq]
    decide
  have hm : statistics_mean (historicVolumes zeroMeanStore 60) = 0 := by
    rw [hv]
    norm_num [statistics_mean]
  refine ⟨hp, by rw [hv]; rfl, hm, ?_⟩
  rw [record_of_zero_mean hp (by rw [hv]; decide) hm]

/-- C3 (amended): with the past-minute volume present, at least two
historic samples, and a historic mean of exactly zero, the handler raises
`ZeroDivisionError` at the `stdev_pct` computation — it does not skip the
metric; nothing is emitted and the store is left unchanged. -/
theorem C3_zero_mean_raises (tick : Int) (s : Store) (p : Int)
    (hp : pastVolume s tick = some p)
    (h2 : 2 ≤ (historicVolumes s tick).length)
    (hm : statistics_mean (historicVolumes s tick) = 0) :
    recordClockTickVolumeMetric true tick s =
      ⟨s, ⟨readKeys tick, 0, 0⟩, some PyError.zeroDivisionError⟩ :=
  record_of_zero_mean hp (Nat.not_lt.mpr h2) hm

/-- Witness for the amended C3 on the concrete zero-mean store. -/
theorem C3_witness :
    recordClockTickVolumeMetric true 60 zeroMeanStore =
      ⟨zeroMeanStore, ⟨readKeys 60, 0, 0⟩, some PyError.zeroDivisionError⟩ := by
  have hv : historicVolumes zeroMeanStore 60 = [0, 0] := by
    simp only [historicVolumes, readKeys, historicTimestamps_eq]
    decide
  have hp : pastVolume zeroMeanStore 60 = some 5 := by
    simp only [pastVolume, readKeys, historicTimestamps_eq]
    decide
  exact C3_zero_mean_raises 60 zeroMeanStore 5 hp (by rw [hv]; decide)
    (by rw [hv]; norm_num [statistics_mean])

/-- C4: whenever the sample standard deviation of the historic volumes is
exactly zero the z-score falls back to `0.0` instead of dividing; on the
uniform store (history `[10, 10, 10]`, past-minute volume 10) the z-score
is 0, the percent deviation is 0, and the stored metric is 0. -/
theorem C4_zero_stdev_z_score_fallback (p : Int) (hist : List Int)
    (hs : statistics_stdev hist = 0) :
    zScore p hist = 0 ∧
    zScore 10 [10, 10, 10] = 0 ∧
    pctDeviation 10 [10, 10, 10] = 0 ∧
    (recordClockTickVolumeMetric true 60 uniformStore).store.metrics
      (makeReferenceTs (60 - 60)) = some 0 := by
  have huni : statistics_stdev [10, 10, 10] = 0 := by
    have hvar : sampleVariance [10, 10, 10] = 0 := by
      norm_num [sampleVariance, statistics_mean]
    rw [statistics_stdev, hvar]
    simp
  have hzero : ∀ (q : Int) (l : List Int), statistics_stdev l = 0 → zScore q l = 0 := by
    intro q l hl
    rw [zScore, if_neg (fun hcon => hcon hl)]
  refine ⟨hzero p hist hs, hzero 10 [10, 10, 10] huni, ?_, ?_⟩
  · norm_num [pctDeviation, statistics_mean]
  · have hv : historicVolumes uniformStore 60 = [10, 10, 10] := by
      simp only [historicVolumes, readKeys, historicTimestamps_eq]
      decide
    have hp : pastVolume uniformStore 60 = some 10 := by
      simp only [pastVolume, readKeys, historicTimestamps_eq]
      decide
    have hm : statistics_mean (historicVolumes uniformStore 60) ≠ 0 := by
      rw [hv]
      norm_num [statistics_mean]
    rw [record_of_write hp (by rw [hv]; decide) hm]
    have : pctDeviation 10 (historicVolumes uniformStore 60) = 0 := by
      rw [hv]
      norm_num [pctDeviation, statistics_mean]
    simp [writeMetric, this]

/-- Witness for C4 at the uniform history `[10, 10, 10]`. -/
theorem C4_witness :
    statistics_stdev [10, 10, 10] = 0 ∧
    (zScore 10 [10, 10, 10] = 0 ∧
     zScore 10 [10, 10, 10] = 0 ∧
     pctDeviation 10 [10, 10, 10] = 0 ∧
     (recordClockTickVolumeMetric true 60 uniformStore).store.metrics
       (makeReferenceTs (60 - 60)) = some 0) := by
  have hs : statistics_stdev [10, 10, 10] = 0 := by
    have hvar : sampleVariance [10, 10, 10] = 0 := by
      norm_num [sampleVariance, statistics_mean]
    rw [statistics_stdev, hvar]
    simp
  exact ⟨hs, C4_zero_stdev_z_score_fallback 10 [10, 10, 10] hs⟩

/-- Effect of the `incr` + `expire` fold over a duplicate-free key list:
each listed key's counter grows by its count and has its TTL reset, every
other key (and the whole metric family) is untouched. -/
theorem foldl_incrExpire (cnt : Int → Nat) :
    ∀ (ks : List Int) (s : Store) (b : Int), ks.Nodup →
      ((ks.foldl (fun st k => incrExpire st k (cnt k)) s).volumes b =
          if b ∈ ks then some ((s.volumes b).getD 0 + cnt b) else s.volumes b) ∧
      ((ks.foldl (fun st k => incrExpire st k (cnt k)) s).volumeTTL b =
          if b ∈ ks then some MONITOR_VOLUME_RETENTION else s.volumeTTL b) ∧
      (ks.foldl (fun st k => incrExpire st k (cnt k)) s).metrics = s.metrics ∧
      (ks.foldl (fun st k => incrExpire st k (cnt k)) s).metricTTL = s.metricTTL := by
  intro ks
  induction ks with
  | nil =>
    intro s b _
    simp
  | cons k t ih =>
    intro s b hnd
    rw [List.nodup_cons] at hnd
    obtain ⟨hk, ht⟩ := hnd
    rw [List.foldl_cons]
    obtain ⟨ihv, ihttl, ihm, ihmttl⟩ := ih (incrExpire s k (cnt k)) b ht
    refine ⟨?_, ?_, ?_, ?_⟩
    · rw [ihv]
      by_cases hbt : b ∈ t
      · have hbk : b ≠ k := fun h => hk (h ▸ hbt)
        simp [hbt, hbk, incrExpire]
      · by_cases hbk : b = k
        · subst hbk
          simp [hbt, incrExpire]
        · simp [hbt, hbk, incrExpire]
    · rw [ihttl]
      by_cases hbt : b ∈ t
      · have hbk : b ≠ k := fun h => hk (h ▸ hbt)
        simp [hbt, hbk, incrExpire]
      · by_cases hbk : b = k
        · subst hbk
          simp [hbt, incrExpire]
        · simp [hbt, hbk, incrExpire]
    · rw [ihm]
      rfl
    · rw [ihmttl]
      rfl

/-- C6: `update_check_in_volume` increments each distinct minute bucket by
exactly the number of input timestamps landing in it and resets that key's
TTL to the 30-day retention; buckets receiving no timestamp are untouched,
and the empty input performs no store operation at all (no counter key is
even named). -/
theorem C6_update_check_in_volume_aggregates (ts_list : List Int) (s : Store) (b : Int) :
    (update_check_in_volume [] s = s ∧ counterKeys [] = []) ∧
    ((ts_list.map makeReferenceTs).count b ≠ 0 →
      (update_check_in_volume ts_list s).volumes b =
        some ((s.volumes b).getD 0 + (ts_list.map makeReferenceTs).count b) ∧
      (update_check_in_volume ts_list s).volumeTTL b = some MONITOR_VOLUME_RETENTION) ∧
    ((ts_list.map makeReferenceTs).count b = 0 →
      (update_check_in_volume ts_list s).volumes b = s.volumes b ∧
      (update_check_in_volume ts_list s).volumeTTL b = s.volumeTTL b) := by
  have hmem : b ∈ counterKeys ts_list ↔ (ts_list.map makeReferenceTs).count b ≠ 0 := by
    rw [counterKeys, List.mem_dedup]
    exact ⟨fun h => by simpa using (List.count_pos_iff.mpr h).ne',
      fun h => by
        rcases Nat.exists_eq_succ_of_ne_zero h with ⟨n, hn⟩
        exact List.count_pos_iff.mp (by omega)⟩
  obtain ⟨hv, httl, _, _⟩ :=
    foldl_incrExpire (fun k => (ts_list.map makeReferenceTs).count k)
      (counterKeys ts_list) s b (List.nodup_dedup _)
  refine ⟨⟨rfl, rfl⟩, fun hne => ?_, fun hz => ?_⟩
  · rw [update_check_in_volume, hv, httl]
    rw [if_pos (hmem.mpr hne), if_pos (hmem.mpr hne)]
    exact ⟨rfl, rfl⟩
  · have hnmem : b ∉ counterKeys ts_list := fun h => (hmem.mp h) hz
    rw [update_check_in_volume, hv, httl, if_neg hnmem, if_neg hnmem]
    exact ⟨rfl, rfl⟩

/-- Witness for C6: timestamps 0 and 59 share minute bucket 0, timestamp
60 is alone in bucket 60, bucket 120 receives nothing. -/
theorem C6_witness :
    (update_check_in_volume [0, 59, 60] emptyStore).volumes 0 = some 2 ∧
    (update_check_in_volume [0, 59, 60] emptyStore).volumeTTL 0 =
      some MONITOR_VOLUME_RETENTION ∧
    (update_check_in_volume [0, 59, 60] emptyStore).volumes 60 = some 1 ∧
    (update_check_in_volume [0, 59, 60] emptyStore).volumes 120 = none := by
  have h0 := (C6_update_check_in_volume_aggregates [0, 59, 60] emptyStore 0).2.1 (by decide)
  have h60 := (C6_update_check_in_volume_aggregates [0, 59, 60] emptyStore 60).2.1 (by decide)
  have h120 := (C6_update_check_in_volume_aggregates [0, 59, 60] emptyStore 120).2.2 (by decide)
  refine ⟨?_, ?_, ?_, ?_⟩
  · rw [h0.1]
    decide
  · exact h0.2
  · rw [h60.1]
    decide
  · rw [h120.1]
    rfl

/-- C8: `record_clock_tick_volume_metric` is idempotent per tick — with
the stored volume history unchanged, running it again from the resulting
store reproduces that store exactly (the second run overwrites the
tick-metric key with an equal value; there is no accumulation), together
with the same effects and the same error outcome. -/
theorem C8_idempotent_per_tick (flag : Bool) (tick : Int) (s : Store) :
    recordClockTickVolumeMetric flag tick
        (recordClockTickVolumeMetric flag tick s).store =
      recordClockTickVolumeMetric flag tick s := by
  cases flag with
  | false => rfl
  | true =>
    cases hp : pastVolume s tick with
    | none =>
      rw [record_of_pastVolume_none hp]
      exact record_of_pastVolume_none hp
    | some p =>
      by_cases h2 : (historicVolumes s tick).length < 2
      · rw [record_of_short_history hp h2]
        exact record_of_short_history hp h2
      · by_cases hm : statistics_mean (historicVolumes s tick) = 0
        · rw [record_of_zero_mean hp h2 hm]
          exact record_of_zero_mean hp h2 hm
        · have hkey := record_of_write hp h2 hm
          have hstore : (recordClockTickVolumeMetric true tick s).store =
              writeMetric s (makeReferenceTs (tick - 60))
                (pctDeviation p (historicVolumes s tick)) := by
            rw [hkey]
          have hh' : historicVolumes
              (writeMetric s (makeReferenceTs (tick - 60))
                (pctDeviation p (historicVolumes s tick))) tick =
              historicVolumes s tick :=
            historicVolumes_writeMetric s (makeReferenceTs (tick - 60))
              (pctDeviation p (historicVolumes s tick)) tick
          have hp' : pastVolume
              (writeMetric s (makeReferenceTs (tick - 60))
                (pctDeviation p (historicVolumes s tick))) tick = some p := by
            rw [pastVolume_writeMetric]
            exact hp
          rw [hstore, hkey,
            record_of_write hp' (by rw [hh']; exact h2) (by rw [hh']; exact hm), hh',
            writeMetric_idem]

/-- C10: on every path the tick handler leaves the whole volume-history
key family (values and TTLs) untouched, its reads are exactly the bulk
`mget` of the historical keys (nothing when the flag is off), and the only
key it can write — metric value or metric TTL — is the tick-metric key of
`past = tick - 1 minute`. -/
theorem C10_frame_only_past_metric_key (flag : Bool) (tick : Int) (s : Store) (k : Int) :
    (recordClockTickVolumeMetric flag tick s).store.volumes k = s.volumes k ∧
    (recordClockTickVolumeMetric flag tick s).store.volumeTTL k = s.volumeTTL k ∧
    (recordClockTickVolumeMetric flag tick s).eff.reads =
      (if flag then readKeys tick else []) ∧
    (k ≠ makeReferenceTs (tick - 60) →
      (recordClockTickVolumeMetric flag tick s).store.metrics k = s.metrics k ∧
      (recordClockTickVolumeMetric flag tick s).store.metricTTL k = s.metricTTL k) := by
  cases flag with
  | false => exact ⟨rfl, rfl, rfl, fun _ => ⟨rfl, rfl⟩⟩
  | true =>
    cases hp : pastVolume s tick with
    | none =>
      rw [record_of_pastVolume_none hp]
      exact ⟨rfl, rfl, rfl, fun _ => ⟨rfl, rfl⟩⟩
    | some p =>
      by_cases h2 : (historicVolumes s tick).length < 2
      · rw [record_of_short_history hp h2]
        exact ⟨rfl, rfl, rfl, fun _ => ⟨rfl, rfl⟩⟩
      · by_cases hm : statistics_mean (historicVolumes s tick) = 0
        · rw [record_of_zero_mean hp h2 hm]
          exact ⟨rfl, rfl, rfl, fun _ => ⟨rfl, rfl⟩⟩
        · rw [record_of_write hp h2 hm]
          refine ⟨rfl, rfl, rfl, fun hk => ⟨?_, ?_⟩⟩
          · simp [writeMetric, hk]
          · simp [writeMetric, hk]

/-- Witness for C10: on the empty store with the flag on, key 7 (not the
tick-metric key of the previous minute) keeps its metric value and TTL. -/
theorem C10_witness :
    (7 : Int) ≠ makeReferenceTs (60 - 60) ∧
    ((recordClockTickVolumeMetric true 60 emptyStore).store.metrics 7 =
        emptyStore.metrics 7 ∧
     (recordClockTickVolumeMetric true 60 emptyStore).store.metricTTL 7 =
        emptyStore.metricTTL 7) := by
  have h7 : (7 : Int) ≠ makeReferenceTs (60 - 60) := by decide
  exact ⟨h7, (C10_frame_only_past_metric_key true 60 emptyStore 7).2.2.2 h7⟩

end SystemIncidents
